import Mathlib

/-!
Shallow embedding of the cursor-updater repository (Python) in Lean 4.

Source files embedded: src/cursor_updater/version.py, download.py, ui.py,
config.py.  Pure functions become Lean functions; I/O-dependent functions
are parameterised over the results of their I/O calls (oracles) and return
their effects explicitly; Python exceptions that escape a function are
modelled with Except.
-/

/-- Decidable equality for Except results, so that witnesses can be settled
by evaluation. -/
instance {ε α : Type} [DecidableEq ε] [DecidableEq α] :
    DecidableEq (Except ε α) := fun x y =>
  match x, y with
  | .ok a, .ok b =>
    if h : a = b then .isTrue (by rw [h]) else .isFalse (by simp [h])
  | .error a, .error b =>
    if h : a = b then .isTrue (by rw [h]) else .isFalse (by simp [h])
  | .ok _, .error _ => .isFalse (by simp)
  | .error _, .ok _ => .isFalse (by simp)

/-! ## Python `int(str)` parsing

`parse_version_tuple` calls `int` on each dot-separated component.  Python's
`int` accepts optional surrounding whitespace, an optional sign, and a
nonempty digit string in which single underscores may separate digits.
-/

/-- Digits of a Python integer literal after the first digit: digits, with
single underscores allowed only between digits. `acc` is the value so far. -/
def pyDigitsRest (acc : Nat) : List Char → Option Nat
  | [] => some acc
  | c :: rest =>
    if c.isDigit then pyDigitsRest (acc * 10 + (c.toNat - 48)) rest
    else if c = '_' then
      match rest with
      | [] => none
      | d :: rest2 =>
        if d.isDigit then pyDigitsRest (acc * 10 + (d.toNat - 48)) rest2 else none
    else none

/-- A nonempty Python digit sequence (underscore separators allowed). -/
def pyDigits : List Char → Option Nat
  | [] => none
  | c :: rest => if c.isDigit then pyDigitsRest (c.toNat - 48) rest else none

/-- Strip leading and trailing whitespace (Python `int` ignores surrounding
whitespace; modelled for ASCII whitespace). -/
def stripChars (cs : List Char) : List Char :=
  ((cs.dropWhile Char.isWhitespace).reverse.dropWhile Char.isWhitespace).reverse

/-- Python `int(s)` on the characters of a string: strip whitespace,
optional sign, digits.  Returns none where Python raises ValueError. -/
def pyIntChars (s : List Char) : Option Int :=
  match stripChars s with
  | '+' :: rest => (pyDigits rest).map Int.ofNat
  | '-' :: rest => (pyDigits rest).map fun n => -(n : Int)
  | cs => (pyDigits cs).map Int.ofNat

/-! ## version.py: parse_version_tuple, sort_versions -/

/-- Python `s.split(".")` on characters: split at every '.', keeping empty
parts (`"".split(".") == [""]`).  `cur` holds the current part reversed. -/
def splitDotAux (cur : List Char) : List Char → List (List Char)
  | [] => [cur.reverse]
  | c :: rest =>
    if c = '.' then cur.reverse :: splitDotAux [] rest
    else splitDotAux (c :: cur) rest

/-- version.py `parse_version_tuple`: `tuple(map(int, version.split(".")))`
with ValueError mapped to None. -/
def parse_version_tuple (version : String) : Option (List Int) :=
  (splitDotAux [] version.toList).mapM pyIntChars

/-- Python tuple-of-int strict comparison (lexicographic, shorter prefix is
smaller). -/
def tupleLt : List Int → List Int → Bool
  | _, [] => false
  | [], _ :: _ => true
  | a :: as, b :: bs => if a < b then true else if b < a then false else tupleLt as bs

/-- Python tuple-of-int non-strict comparison. -/
def tupleLe : List Int → List Int → Bool
  | [], _ => true
  | _ :: _, [] => false
  | a :: as, b :: bs => if a < b then true else if b < a then false else tupleLe as bs

/-- Sort key of a version string; only consulted where the parse succeeded
(a None key taking part in a comparison raises instead, see sort_versions). -/
def keyOf (v : String) : List Int := (parse_version_tuple v).getD []

/-- The list ordering CPython's stable sort produces for
`sorted(versions, key=parse_version_tuple, reverse=True)` when every
comparison of keys is defined: stable, descending by tuple comparison. -/
def sortVersionsOk (versions : List String) : List String :=
  versions.mergeSort fun a b => tupleLe (keyOf b) (keyOf a)

/-- version.py `sort_versions`: `sorted(versions, key=parse_version_tuple,
reverse=True)`.  Python 3 comparisons between None and a tuple (or None and
None) raise TypeError; CPython's sort compares every element of a list of
length at least two at least once, so the call raises exactly when the list
has at least two elements and some key is None.  The error case is the
TypeError escaping to the caller. -/
def sort_versions (versions : List String) : Except Unit (List String) :=
  if decide (2 ≤ versions.length)
      && versions.any (fun v => (parse_version_tuple v).isNone) then
    .error ()
  else
    .ok (sortVersionsOk versions)

/-! ## config.py constants -/

/-- config.py CACHE_MAX_AGE = 15 * 60 (seconds). -/
def CACHE_MAX_AGE : Int := 15 * 60

/-- config.py DOWNLOADS_DIR (a fixed directory path). -/
def DOWNLOADS_DIR : String := "/root/.local/share/cvm/app-images"

/-- Modelled from the spec: config.py in src/ does not define CURSOR_APPIMAGE
(download.py and ui.py import it); per the spec and the docstring of
update_desktop_file it is the fixed ActivePointer path
~/.local/bin/cursor.AppImage. Its exact value decides no claim. -/
def CURSOR_APPIMAGE : String := "/root/.local/bin/cursor.AppImage"

/-! ## Remote manifest model (version.py)

The version history is a JSON document `{ "versions": [ { "version": str,
"platforms": { key: url } }, ... ] }`.  We model top-level dicts closely
enough to capture Python truthiness (`if not version_history` is true for
None and for the empty dict) and the optional keys the code reads with
`.get`. -/

/-- One element of the manifest's "versions" array: the "version" key may be
absent (reading it with `v["version"]` then raises KeyError), "platforms"
maps platform keys to url strings (an empty url string is falsy). -/
structure VersionEntry where
  version : Option String
  platforms : List (String × String)
deriving Repr, DecidableEq

/-- The top-level version-history dict: the "versions" key if present, plus
whether any other top-level key exists (for dict truthiness). -/
structure VersionHistory where
  versions : Option (List VersionEntry)
  extraKeys : Bool
deriving Repr, DecidableEq

/-- Python truthiness of a dict: nonempty. -/
def VersionHistory.truthy (h : VersionHistory) : Bool :=
  h.versions.isSome || h.extraKeys

/-- Truthiness of an Optional[dict] value. -/
def histTruthy : Option VersionHistory → Bool
  | none => false
  | some h => h.truthy

/-- Python `v.get("platforms", {}).get(platform_name)`. -/
def lookupPlatform (platforms : List (String × String)) (name : String) :
    Option String :=
  (platforms.find? fun p => p.1 == name).map Prod.snd

/-- Whether the list comprehension's filter selects entry `v`: its platforms
dict has a truthy url under the current platform key. -/
def entrySelected (p : String) (v : VersionEntry) : Bool :=
  match lookupPlatform v.platforms p with
  | some url => url != ""
  | none => false

/-- version.py `get_platform_versions`: the comprehension
`[v["version"] for v in versions if v.get("platforms", {}).get(platform)]`;
a selected entry with no "version" key raises KeyError, which the
surrounding `except (KeyError, ValueError)` turns into []. -/
def get_platform_versions (h : VersionHistory) (p : String) : List String :=
  let selected := (h.versions.getD []).filter (entrySelected p)
  if selected.all fun v => v.version.isSome then
    selected.filterMap VersionEntry.version
  else []

/-- version.py `get_latest_remote_version`, parameterised by the result of
`get_version_history()`.  `if not version_history` is dict truthiness;
`sorted_versions[0]` is taken without filtering unparseable entries, and the
sort's TypeError (see sort_versions) escapes to the caller. -/
def get_latest_remote_version (history : Option VersionHistory) (p : String) :
    Except Unit (Option String) :=
  if !histTruthy history then .ok none
  else
    let pv := get_platform_versions (history.getD ⟨none, false⟩) p
    if pv.isEmpty then .ok none
    else
      match sort_versions pv with
      | .error e => .error e
      | .ok sorted => .ok sorted.head?

/-! ## Cache model (version.py VersionHistoryCache, get_version_history) -/

/-- version.py `VersionHistoryCache.is_cache_valid`: the file exists and
`time.time() - mtime < CACHE_MAX_AGE`.  `age` stands for that difference. -/
def is_cache_valid (fileExists : Bool) (age : Int) : Bool :=
  fileExists && decide (age < CACHE_MAX_AGE)

/-- version.py `VersionHistoryCache.load`: None unless the cache is valid,
then the parsed file content, where `content = none` stands for corrupt JSON
or an OSError while reading (both caught and turned into None). -/
def VersionHistoryCache.load (fileExists : Bool) (age : Int)
    (content : Option VersionHistory) : Option VersionHistory :=
  if is_cache_valid fileExists age then content else none

/-- version.py `VersionHistoryCache.load_stale`: the same but ignoring age. -/
def VersionHistoryCache.load_stale (fileExists : Bool)
    (content : Option VersionHistory) : Option VersionHistory :=
  if fileExists then content else none

/-- version.py `get_version_history`, parameterised by the results of the
three tiers (`load()`, `fetch_version_history()`, `load_stale()`).  Returns
the chosen document and whether `VersionHistoryCache.save` was invoked.
`if cached:` and `if data:` are dict truthiness: None and the empty dict
both fall through. -/
def get_version_history (loadRes fetchRes staleRes : Option VersionHistory) :
    Option VersionHistory × Bool :=
  if histTruthy loadRes then (loadRes, false)
  else if histTruthy fetchRes then (fetchRes, true)
  else (staleRes, false)

/-! ## download.py: paths, download_file, download_version -/

/-- A filesystem path, modelled as a directory part and a final name
component (Path.name). -/
structure FsPath where
  dir : String
  name : String
deriving Repr, DecidableEq

/-- Full path string. -/
def FsPath.full (p : FsPath) : String := p.dir ++ "/" ++ p.name

/-- download.py `get_appimage_path`:
`DOWNLOADS_DIR / f"cursor-{version}.AppImage"`. -/
def get_appimage_path (version : String) : FsPath :=
  ⟨DOWNLOADS_DIR, "cursor-" ++ version ++ ".AppImage"⟩

/-- Oracle for one run of `download_file`: whether `urlopen` succeeds,
whether `open(filepath, "wb")` succeeds, the byte counts of the chunks the
response yields before the stream either ends or raises, whether a read or
write raises after those chunks, and whether the final `os.chmod` succeeds. -/
structure DlFileEnv where
  connectOk : Bool
  openOk : Bool
  chunkSizes : List Nat
  readRaises : Bool
  chmodOk : Bool
deriving Repr, DecidableEq

/-- The `except` clause of `download_file`:
`if filepath.exists(): filepath.unlink()`.  The file state is the number of
bytes written (`none` = no file). -/
def dlCleanup : Option Nat → Option Nat
  | none => none
  | some _ => none

/-- download.py `download_file`, over the oracle and the prior state of the
destination file.  Returns (result, final file state).  Every
URLError/HTTPError/TimeoutError/OSError lands in the `except` clause, which
deletes the file if present and returns False; on success the file holds all
streamed bytes and was made executable. -/
def download_file (env : DlFileEnv) (pre : Option Nat) : Bool × Option Nat :=
  if !env.connectOk then (false, dlCleanup pre)
  else if !env.openOk then (false, dlCleanup pre)
  else
    let written := env.chunkSizes.sum
    if env.readRaises then (false, dlCleanup (some written))
    else if !env.chmodOk then (false, dlCleanup (some written))
    else (true, some written)

/-- Truthiness of the Optional[str] returned by `get_download_url`
(`if not url:`). -/
def urlTruthy : Option String → Bool
  | none => false
  | some u => u != ""

/-- download.py `download_version`, parameterised by the result of
`get_download_url(version)`, a download oracle, and the prior state of the
artifact file.  Returns (result, final artifact file state, whether
`download_file` was invoked).  `DOWNLOADS_DIR.mkdir(exist_ok=True)` is
modelled as succeeding. -/
def download_version (urlRes : Option String) (env : DlFileEnv)
    (pre : Option Nat) : Bool × Option Nat × Bool :=
  if !urlTruthy urlRes then (false, pre, false)
  else if pre.isSome then (true, pre, false)
  else
    let r := download_file env none
    (r.1, r.2, true)

/-! ## download.py: activation (create_symlink, update_desktop_file,
select_version)

State around the ActivePointer path CURSOR_APPIMAGE: the entry at that
path, its backup file, a possible case-variant file in the same directory
(a different path whose lowercased name is "cursor.appimage"), and that
variant's backup.  `_backup_file` uses `Path.rename`, which is invoked
outside any try/except, so a rename failure escapes as an uncaught OSError:
the Except error value models that escape. -/

/-- Kind of a directory entry. -/
inductive EntryKind
  | symlinkTo (target : String)
  | regular
deriving Repr, DecidableEq

/-- The ActivePointer's directory neighbourhood. -/
structure ActiveDirState where
  active : Option EntryKind
  activeBackup : Option EntryKind
  caseVariant : Option EntryKind
  caseVariantBackup : Option EntryKind
deriving Repr, DecidableEq

/-- Oracle for `create_symlink` at the ActivePointer. -/
structure SymlinkOracle where
  renameOk : Bool
  symlinkOk : Bool
deriving Repr, DecidableEq

/-- download.py `_remove_case_variants`: for the first matching case-variant
file, unlink it if it is a symlink, else back it up by rename (overwriting
any prior backup of that name); a rename failure raises. -/
def remove_case_variants (o : SymlinkOracle) (d : ActiveDirState) :
    Except Unit ActiveDirState :=
  match d.caseVariant with
  | none => .ok d
  | some (.symlinkTo _) => .ok { d with caseVariant := none }
  | some .regular =>
    if o.renameOk then
      .ok { d with caseVariant := none, caseVariantBackup := some .regular }
    else .error ()

/-- The middle of download.py `create_symlink`: unlink an existing symlink
at the link path, or back up an existing regular file there (a rename
failure raises). -/
def backupActive (o : SymlinkOracle) (d : ActiveDirState) :
    Except Unit ActiveDirState :=
  match d.active with
  | some (.symlinkTo _) => .ok { d with active := none }
  | some .regular =>
    if o.renameOk then
      .ok { d with active := none, activeBackup := some .regular }
    else .error ()
  | none => .ok d

/-- download.py `create_symlink` at link = CURSOR_APPIMAGE: remove case
variants; unlink an existing symlink or back up an existing regular file;
then try `link.symlink_to(target)`, whose OSError is caught and reported as
False. -/
def create_symlink (target : String) (o : SymlinkOracle) (d : ActiveDirState) :
    Except Unit (Bool × ActiveDirState) :=
  match remove_case_variants o d with
  | .error e => .error e
  | .ok d1 =>
    match backupActive o d1 with
    | .error e => .error e
    | .ok d2 =>
      if o.symlinkOk then
        .ok (true, { d2 with active := some (.symlinkTo target) })
      else
        .ok (false, d2)

/-- Oracle for `update_desktop_file`: whether `read_text` and `write_text`
succeed (their OSErrors are caught inside the function). -/
structure DesktopOracle where
  readOk : Bool
  writeOk : Bool
deriving Repr, DecidableEq

/-- Python `s.strip().split()`: split on whitespace runs, dropping empty
parts.  `cur` holds the current word reversed. -/
def splitWsAux (cur : List Char) : List Char → List (List Char)
  | [] => if cur.isEmpty then [] else [cur.reverse]
  | c :: rest =>
    if Char.isWhitespace c then
      if cur.isEmpty then splitWsAux [] rest
      else cur.reverse :: splitWsAux [] rest
    else splitWsAux (c :: cur) rest

/-- String prefix test on characters (Python `str.startswith`). -/
def strStartsWith (pre s : String) : Bool :=
  pre.toList.isPrefixOf s.toList

/-- The rewrite applied to a line starting with "Exec=": Python
`parts = line.strip().split()`, keep the arguments after the command, and
emit `Exec={CURSOR_APPIMAGE}{args}`. -/
def rewriteExecLine (line : String) : String :=
  let parts := (splitWsAux [] line.toList).map fun p => (⟨p⟩ : String)
  let args :=
    if 1 < parts.length then " " ++ String.intercalate " " parts.tail else ""
  "Exec=" ++ CURSOR_APPIMAGE ++ args

/-- download.py `update_desktop_file`, over the desktop file's lines
(none = DESKTOP_FILE does not exist).  Returns (result, final lines).  A
read or write OSError is caught and yields False; the file is modelled as
unchanged on a failed write. -/
def update_desktop_file (o : DesktopOracle) (desktop : Option (List String)) :
    Bool × Option (List String) :=
  match desktop with
  | none => (false, none)
  | some lines =>
    if !o.readOk then (false, some lines)
    else
      let updated := lines.any fun l => strStartsWith "Exec=" l
      if updated then
        if o.writeOk then
          (true, some (lines.map fun l =>
            if strStartsWith "Exec=" l then rewriteExecLine l else l))
        else (false, some lines)
      else (false, some lines)

/-- Facts about a running Cursor instance found in the process table, as
tested by step (e) of `select_version`. -/
structure RunInfo where
  differsFromActive : Bool
  stillExists : Bool
  parentWritable : Bool
deriving Repr, DecidableEq

/-- Oracle for one run of `select_version`. -/
structure SelOracle where
  sym : SymlinkOracle
  desktop : DesktopOracle
  running : Option RunInfo
  relinkOk : Bool
deriving Repr, DecidableEq

/-- Filesystem state visible to `select_version`: the versions whose
artifact file `cursor-<v>.AppImage` exists in DOWNLOADS_DIR, the
ActivePointer neighbourhood, the desktop file's lines, and whether the
running instance's path was relinked (step (e)'s effect, held abstract: it
acts on a different path and its exceptions are caught). -/
structure FS where
  artifacts : List String
  dirState : ActiveDirState
  desktop : Option (List String)
  runningRelinked : Bool
deriving Repr, DecidableEq

/-- download.py `select_version`: fail if the artifact is missing; fail if
`create_symlink` returns False; then best-effort desktop-file rewrite and
best-effort relink of a running instance's path, neither of which affects
the result. -/
def select_version (version : String) (o : SelOracle) (fs : FS) :
    Except Unit (Bool × FS) :=
  if !(fs.artifacts.contains version) then
    .ok (false, fs)
  else
    match create_symlink (get_appimage_path version).full o.sym fs.dirState with
    | .error e => .error e
    | .ok r =>
      if !r.1 then
        .ok (false, { fs with dirState := r.2 })
      else
        let desk := update_desktop_file o.desktop fs.desktop
        let fs1 : FS := { fs with dirState := r.2, desktop := desk.2 }
        let fs2 : FS :=
          match o.running with
          | some ri =>
            if ri.differsFromActive && ri.stillExists && ri.parentWritable then
              { fs1 with runningRelinked := o.relinkOk }
            else fs1
          | none => fs1
        .ok (true, fs2)

/-! ## ui.py: update_cursor (the update orchestrator) -/

/-- Truthiness of an Optional[str] (`if not latest_remote:`). -/
def strTruthy : Option String → Bool
  | none => false
  | some s => s != ""

/-- Events the orchestrator can trigger, in order. -/
inductive UEvent
  | download (v : String)
  | activate (v : String)
deriving Repr, DecidableEq

/-- ui.py `update_cursor`, parameterised by the results of
`get_latest_remote_version()` and `get_latest_local_version()` and by the
outcomes of `download_version` and `select_version` (the latter may raise,
see `select_version`; the error propagates).  Returns the boolean result and
the list of invocations performed. -/
def update_cursor (latestRemote latestLocal : Option String)
    (downloadOk : String → Bool) (activateRes : String → Except Unit Bool) :
    Except Unit (Bool × List UEvent) := do
  if !strTruthy latestRemote then
    return (false, [])
  let lr := latestRemote.getD ""
  if latestRemote ≠ latestLocal then
    if !downloadOk lr then
      return (false, [.download lr])
    let s ← activateRes lr
    return (s, [.download lr, .activate lr])
  else
    let s ← activateRes lr
    return (s, [.activate lr])

/-! ## version.py: extract_version_from_filename

config.py VERSION_PATTERN = `cursor-([0-9.]+)\.AppImage`; the function is
`VERSION_PATTERN.search(filename)` returning group 1.  The regex is embedded
directly: at each start position, match the literal "cursor-", then a
greedy, backtracking run of `[0-9.]`, then the literal ".AppImage";
`re.search` takes the leftmost start position that matches. -/

/-- The character class `[0-9.]`. -/
def versionChar (c : Char) : Bool := c.isDigit || c == '.'

/-- The literal tail `\.AppImage` of VERSION_PATTERN. -/
def regexTail : List Char := '.' :: "AppImage".toList

/-- Greedy backtracking for the group `([0-9.]+)`: try group lengths from
`k` down to 1, accepting the first whose remainder begins with ".AppImage".
`run` is the maximal class run after "cursor-", `after` the rest. -/
def greedyGroup (run after : List Char) : Nat → Option (List Char)
  | 0 => none
  | k + 1 =>
    if regexTail.isPrefixOf (run.drop (k + 1) ++ after) then
      some (run.take (k + 1))
    else greedyGroup run after k

/-- Match VERSION_PATTERN at exactly this start position, returning group 1. -/
def matchAt (cs : List Char) : Option String :=
  if ("cursor-".toList).isPrefixOf cs then
    let rest := cs.drop 7
    let run := rest.takeWhile versionChar
    let after := rest.dropWhile versionChar
    (greedyGroup run after run.length).map fun g => ⟨g⟩
  else none

/-- Python `re.search`: leftmost matching start position. -/
def searchVersion : List Char → Option String
  | [] => none
  | c :: rest =>
    match matchAt (c :: rest) with
    | some g => some g
    | none => searchVersion rest

/-- version.py `extract_version_from_filename`:
`VERSION_PATTERN.search(filename)` and group 1, else None. -/
def extract_version_from_filename (filename : String) : Option String :=
  searchVersion filename.toList

/-! ## Theorems -/

/-- C1: update_cursor first resolves the latest remote version and returns
failure (invoking nothing) if it is absent; it resolves the latest local
version; if the two differ it invokes the download and aborts on download
failure; in every case where it proceeds it invokes activation on the
latest-remote version, whether or not a download occurred, and its boolean
result is the activation's result. -/
theorem update_cursor_orchestration (latestLocal : Option String)
    (lr : String) (downloadOk : String → Bool)
    (activateRes : String → Except Unit Bool) (hlr : lr ≠ "") :
    (update_cursor none latestLocal downloadOk activateRes = .ok (false, [])) ∧
    (some lr ≠ latestLocal → downloadOk lr = false →
      update_cursor (some lr) latestLocal downloadOk activateRes =
        .ok (false, [.download lr])) ∧
    (some lr ≠ latestLocal → downloadOk lr = true → ∀ s,
      activateRes lr = .ok s →
      update_cursor (some lr) latestLocal downloadOk activateRes =
        .ok (s, [.download lr, .activate lr])) ∧
    (some lr = latestLocal → ∀ s, activateRes lr = .ok s →
      update_cursor (some lr) latestLocal downloadOk activateRes =
        .ok (s, [.activate lr])) := by
  refine ⟨?_, ?_, ?_, ?_⟩
  · simp [update_cursor, strTruthy, pure, Except.pure, bind, Except.bind]
  · intro hne hdl
    simp [update_cursor, strTruthy, hlr, hne, hdl, pure, Except.pure, bind, Except.bind]
  · intro hne hdl s hs
    simp [update_cursor, strTruthy, hlr, hne, hdl, hs, pure, Except.pure, bind, Except.bind]
  · intro heq s hs
    simp [update_cursor, strTruthy, hlr, ← heq, hs, pure, Except.pure, bind, Except.bind]

/-- Witness for C1: the spec scenario where the local artifact "1.3.0"
exists and the remote latest is "1.3.0": update_cursor skips the download
and still performs activation, returning the activation's result. -/
theorem update_cursor_orchestration_witness :
    update_cursor (some "1.3.0") (some "1.3.0") (fun _ => true)
      (fun _ => .ok true) = .ok (true, [.activate "1.3.0"]) :=
  (update_cursor_orchestration (some "1.3.0") "1.3.0" (fun _ => true)
    (fun _ => .ok true) (by decide)).2.2.2 rfl true rfl


/-- C5: activation of a version whose artifact file does not exist locally
returns failure immediately and leaves the whole filesystem state — the
ActivePointer, every backup file, and the desktop launcher file — exactly
as it was. -/
theorem select_version_missing_artifact (version : String) (o : SelOracle)
    (fs : FS) (h : fs.artifacts.contains version = false) :
    select_version version o fs = .ok (false, fs) := by
  unfold select_version
  rw [h]
  rfl

/-- Witness for C5: a concrete state holding only artifact "1.2.0"; asking
to activate "1.3.0" fails and changes nothing. -/
theorem select_version_missing_artifact_witness :
    select_version "1.3.0" ⟨⟨true, true⟩, ⟨true, true⟩, none, true⟩
      ⟨["1.2.0"], ⟨some (.symlinkTo "t"), none, none, none⟩, some ["Exec=x"],
        false⟩ =
      .ok (false, ⟨["1.2.0"], ⟨some (.symlinkTo "t"), none, none, none⟩,
        some ["Exec=x"], false⟩) :=
  select_version_missing_artifact "1.3.0" _ _ (by decide)

/-- The result component of a completed `create_symlink` run is exactly
whether `link.symlink_to` succeeded. -/
theorem create_symlink_result (target : String) (o : SymlinkOracle)
    (d : ActiveDirState) (r : Bool × ActiveDirState)
    (h : create_symlink target o d = .ok r) : r.1 = o.symlinkOk := by
  unfold create_symlink at h
  split at h
  · exact absurd h (by simp)
  · split at h
    · exact absurd h (by simp)
    · split at h
      · next hs => injection h with h2; rw [← h2]; exact hs.symm
      · next hs =>
        injection h with h2
        rw [← h2]
        exact (Bool.not_eq_true _ ▸ hs : o.symlinkOk = false).symm

/-- C6: whenever the artifact exists and `select_version` completes with a
boolean result, that result equals the success of the ActivePointer symlink
creation (step c) alone: the outcomes of the desktop-file rewrite and of the
running-instance relink never change it. -/
theorem select_version_result_eq_symlink_success (version : String)
    (o : SelOracle) (fs : FS) (res : Bool × FS)
    (hart : fs.artifacts.contains version = true)
    (hres : select_version version o fs = .ok res) :
    res.1 = o.sym.symlinkOk := by
  unfold select_version at hres
  rw [hart] at hres
  simp only [Bool.not_true, Bool.false_eq_true, if_false] at hres
  split at hres
  · exact absurd hres (by simp)
  · next r hcs =>
    have hr := create_symlink_result _ _ _ _ hcs
    split at hres
    · next h1 =>
      injection hres with h2
      rw [← h2]
      simp only [← hr]
      simpa using h1
    · next h1 =>
      injection hres with h2
      rw [← h2]
      simp only [← hr]
      simpa using h1

/-- Witness for C6: the artifact "1.0" exists, the symlink creation
succeeds, the desktop-file write fails and the running-instance relink
fails; the overall result is still true, the symlink creation's success. -/
theorem select_version_result_eq_symlink_success_witness :
    (true, (⟨["1.0"],
        ⟨some (.symlinkTo (get_appimage_path "1.0").full), none, none, none⟩,
        some ["Exec=old"], false⟩ : FS)).1 =
      (⟨⟨true, true⟩, ⟨true, false⟩, some ⟨true, true, true⟩, false⟩ :
        SelOracle).sym.symlinkOk :=
  select_version_result_eq_symlink_success "1.0"
    ⟨⟨true, true⟩, ⟨true, false⟩, some ⟨true, true, true⟩, false⟩
    ⟨["1.0"], ⟨none, none, none, none⟩, some ["Exec=old"], false⟩
    _ (by decide) (by decide)

/-- A successful `download_file` leaves a file at the destination. -/
theorem download_file_success_state (env : DlFileEnv) (pre : Option Nat)
    (h : (download_file env pre).1 = true) :
    (download_file env pre).2.isSome = true := by
  unfold download_file at h ⊢
  split_ifs at h ⊢ <;> simp_all

/-- When the artifact file exists, `download_version` never invokes
`download_file`, whatever the URL resolution yields. -/
theorem download_version_no_transfer_when_present (url : Option String)
    (env : DlFileEnv) (st : Option Nat) (h : st.isSome = true) :
    (download_version url env st).2.2 = false := by
  unfold download_version
  split_ifs <;> simp_all

/-- C8: whenever `download_file` encounters a transport, timeout or
filesystem error — connection failure, open failure, a read/write raise
mid-stream, or a chmod failure — it returns failure and the destination
file is gone: no partial artifact remains. -/
theorem download_file_deletes_on_failure (env : DlFileEnv) (pre : Option Nat)
    (h : env.connectOk = false ∨ env.openOk = false ∨ env.readRaises = true ∨
      env.chmodOk = false) :
    download_file env pre = (false, none) := by
  have hclean : ∀ p, dlCleanup p = none := fun p => by cases p <;> rfl
  unfold download_file
  split_ifs with h1 h2 h3 h4 <;> simp_all [hclean]

/-- Witness for C8: a download that raises after streaming two chunks
(4096 bytes written) reports failure and leaves no file. -/
theorem download_file_deletes_on_failure_witness :
    download_file ⟨true, true, [2048, 2048], true, true⟩ none =
      (false, none) :=
  download_file_deletes_on_failure ⟨true, true, [2048, 2048], true, true⟩ none
    (by decide)

/-- C7 counterexample: the artifact for the requested version exists
locally (a 5-byte file), but the download URL does not resolve
(`get_download_url` returned None, e.g. manifest unavailable);
`download_version` then returns failure, although the claim as stated
promises success for every version whose artifact exists. -/
theorem download_version_counterexample :
    (download_version none ⟨true, true, [], false, true⟩ (some 5)).1 =
      false := by decide

/-- C7 as amended: when the URL resolves and the artifact exists,
`download_version` succeeds without invoking the transfer and without
touching the file; when the URL does not resolve it fails without a
transfer; and after any successful call a second call performs no
transfer — so the artifact body is transferred at most once. -/
theorem download_version_short_circuit (url url2 : Option String)
    (env env2 : DlFileEnv) (pre : Option Nat) :
    (urlTruthy url = true → pre.isSome = true →
      download_version url env pre = (true, pre, false)) ∧
    (urlTruthy url = false →
      download_version url env pre = (false, pre, false)) ∧
    ((download_version url env pre).1 = true →
      (download_version url2 env2 (download_version url env pre).2.1).2.2 =
        false) := by
  refine ⟨fun h1 h2 => ?_, fun h1 => ?_, fun h1 => ?_⟩
  · simp [download_version, h1, h2]
  · simp [download_version, h1]
  · have hsome : (download_version url env pre).2.1.isSome = true := by
      by_cases ha : urlTruthy url = true
      · by_cases hb : pre.isSome = true
        · simp [download_version, ha, hb]
        · have h1x : (download_file env none).1 = true := by
            unfold download_version at h1
            simp [ha, hb] at h1
            exact h1
          have := download_file_success_state env none h1x
          simp [download_version, ha, hb]
          exact this
      · unfold download_version at h1
        simp [ha] at h1
    exact download_version_no_transfer_when_present url2 env2 _ hsome

/-- Witness for C7's amended claim: with a resolving URL and the artifact
already present (7 bytes), the call returns success, the file is untouched
and no transfer happens; a first successful fresh download followed by a
second call transfers only once. -/
theorem download_version_short_circuit_witness :
    download_version (some "https://u") ⟨true, true, [], false, true⟩
        (some 7) = (true, some 7, false) ∧
    (download_version (some "https://u")
        ⟨true, true, [1024], false, true⟩
        (download_version (some "https://u") ⟨true, true, [1024], false, true⟩
          none).2.1).2.2 = false :=
  ⟨(download_version_short_circuit (some "https://u") (some "https://u")
      ⟨true, true, [], false, true⟩ ⟨true, true, [], false, true⟩
      (some 7)).1 (by decide) (by decide),
    (download_version_short_circuit (some "https://u") (some "https://u")
      ⟨true, true, [1024], false, true⟩ ⟨true, true, [1024], false, true⟩
      none).2.2 (by decide)⟩

/-- C9: `VersionHistoryCache.load` returns the stored manifest exactly when
the cache file exists, its age is within the 15-minute threshold, and its
content parses; when the age reaches the threshold, the file is absent, or
the content is corrupt, it returns absent.  The function is total: no error
reaches the caller. -/
theorem cache_load_contract (fileExists : Bool) (age : Int)
    (content : Option VersionHistory) :
    (∀ m, VersionHistoryCache.load fileExists age content = some m ↔
      fileExists = true ∧ age < CACHE_MAX_AGE ∧ content = some m) ∧
    (CACHE_MAX_AGE ≤ age →
      VersionHistoryCache.load fileExists age content = none) ∧
    (fileExists = false →
      VersionHistoryCache.load fileExists age content = none) ∧
    (content = none →
      VersionHistoryCache.load fileExists age content = none) := by
  unfold VersionHistoryCache.load is_cache_valid
  refine ⟨fun m => ?_, fun h => ?_, fun h => ?_, fun h => ?_⟩
  · split_ifs with hv
    · simp_all
    · simp_all
  · split_ifs with hv
    · simp_all; omega
    · rfl
  · simp [h]
  · split_ifs <;> simp [h]

/-- Witness for C9: a 100-second-old cache with parseable content is
returned; a cache exactly 900 seconds old (the threshold) is treated as
expired; a fresh but corrupt cache yields absent. -/
theorem cache_load_contract_witness :
    VersionHistoryCache.load true 100 (some ⟨some [], false⟩) =
      some ⟨some [], false⟩ ∧
    VersionHistoryCache.load true 900 (some ⟨some [], false⟩) = none ∧
    VersionHistoryCache.load true 100 none = none :=
  ⟨((cache_load_contract true 100 (some ⟨some [], false⟩)).1
      ⟨some [], false⟩).mpr ⟨rfl, by decide, rfl⟩,
    (cache_load_contract true 900 (some ⟨some [], false⟩)).2.1 (by decide),
    (cache_load_contract true 100 none).2.2.2 rfl⟩

/-- C3 counterexample: the cache load succeeds — the cache file holds the
valid JSON document {}, parsed into the empty manifest — yet
`get_version_history` does not return that manifest as the claim demands:
the empty dict is falsy, so the code falls through to the live fetch and
returns the fetched document instead. -/
theorem get_version_history_counterexample :
    (get_version_history (some ⟨none, false⟩)
        (some ⟨some [⟨some "1.0", [("linux-x64", "u")]⟩], false⟩) none).1 ≠
      some ⟨none, false⟩ ∧
    (get_version_history (some ⟨none, false⟩)
        (some ⟨some [⟨some "1.0", [("linux-x64", "u")]⟩], false⟩) none).1 =
      some ⟨some [⟨some "1.0", [("linux-x64", "u")]⟩], false⟩ := by
  decide

/-- C3 as amended: `get_version_history` returns the cached document when
the cache load yields a truthy (non-empty) manifest; otherwise, when the
live fetch yields a truthy manifest, it saves and returns it; otherwise it
returns the stale cache load's result as-is; and its result is absent only
when neither load nor fetch yielded a truthy manifest and the stale load
yielded nothing. -/
theorem get_version_history_tiers (loadRes fetchRes staleRes :
    Option VersionHistory) :
    (histTruthy loadRes = true →
      get_version_history loadRes fetchRes staleRes = (loadRes, false)) ∧
    (histTruthy loadRes = false → histTruthy fetchRes = true →
      get_version_history loadRes fetchRes staleRes = (fetchRes, true)) ∧
    (histTruthy loadRes = false → histTruthy fetchRes = false →
      get_version_history loadRes fetchRes staleRes = (staleRes, false)) ∧
    ((get_version_history loadRes fetchRes staleRes).1 = none →
      histTruthy loadRes = false ∧ histTruthy fetchRes = false ∧
        staleRes = none) := by
  refine ⟨fun h => ?_, fun h1 h2 => ?_, fun h1 h2 => ?_, fun h => ?_⟩
  · simp [get_version_history, h]
  · simp [get_version_history, h1, h2]
  · simp [get_version_history, h1, h2]
  · unfold get_version_history at h
    split_ifs at h with h1 h2
    · simp only [] at h; rw [h] at h1; simp [histTruthy] at h1
    · simp only [] at h; rw [h] at h2; simp [histTruthy] at h2
    · exact ⟨Bool.not_eq_true _ ▸ h1, Bool.not_eq_true _ ▸ h2,
        by simpa using h⟩

/-- Witness for C3's amended claim: a truthy cached manifest is returned
without a save; with an empty cache and a truthy fetch, the fetch result is
saved and returned; with nothing anywhere the result is absent. -/
theorem get_version_history_tiers_witness :
    get_version_history (some ⟨some [], false⟩) none none =
      (some ⟨some [], false⟩, false) ∧
    get_version_history none (some ⟨some [], false⟩) none =
      (some ⟨some [], false⟩, true) ∧
    get_version_history none none none = (none, false) :=
  ⟨(get_version_history_tiers (some ⟨some [], false⟩) none none).1
      (by decide),
    (get_version_history_tiers none (some ⟨some [], false⟩) none).2.1
      (by decide) (by decide),
    (get_version_history_tiers none none none).2.2.1 (by decide) (by decide)⟩

/-- Python tuple comparison is total. -/
theorem tupleLe_total (xs ys : List Int) :
    (tupleLe xs ys || tupleLe ys xs) = true := by
  induction xs generalizing ys with
  | nil => simp [tupleLe]
  | cons a as ih =>
    cases ys with
    | nil => simp [tupleLe]
    | cons b bs =>
      simp only [tupleLe]
      rcases lt_trichotomy a b with h | h | h
      · simp [h]
      · simp [h, lt_irrefl]
        simpa using ih bs
      · simp [h, not_lt.mpr h.le]

/-- Python tuple comparison is transitive. -/
theorem tupleLe_trans (xs ys zs : List Int) (h1 : tupleLe xs ys = true)
    (h2 : tupleLe ys zs = true) : tupleLe xs zs = true := by
  induction xs generalizing ys zs with
  | nil => simp [tupleLe]
  | cons a as ih =>
    cases ys with
    | nil => simp [tupleLe] at h1
    | cons b bs =>
      cases zs with
      | nil => simp [tupleLe] at h2
      | cons c cs =>
        simp only [tupleLe] at h1 h2 ⊢
        split_ifs at h1 h2 ⊢ <;>
          first
            | rfl
            | omega
            | (exact ih bs cs h1 h2)

/-- C4: on a list of version strings that all parse, sort_versions succeeds
and returns a permutation of its input that is descending under the numeric
component-wise tuple ordering; that ordering is numeric, not lexicographic:
the parsed "1.10.0" compares above the parsed "1.9.9" although "1.10.0"
precedes "1.9.9" in character-lexicographic order. -/
theorem sort_versions_numeric_order (versions : List String)
    (h : ∀ v ∈ versions, (parse_version_tuple v).isSome = true) :
    (∃ l, sort_versions versions = .ok l ∧ l.Perm versions ∧
      l.Pairwise fun a b => tupleLe (keyOf b) (keyOf a) = true) ∧
    tupleLt (keyOf "1.9.9") (keyOf "1.10.0") = true ∧
    List.Lex (· < ·) "1.10.0".toList "1.9.9".toList := by
  refine ⟨⟨sortVersionsOk versions, ?_, ?_, ?_⟩, by decide, by decide⟩
  · unfold sort_versions
    have hany : versions.any (fun v => (parse_version_tuple v).isNone)
        = false := by
      simp only [List.any_eq_false]
      intro v hv
      simp [Option.isNone_eq_false_iff, Option.isSome_iff_ne_none.mp (h v hv)]
    simp [hany]
  · exact List.mergeSort_perm versions _
  · exact List.sorted_mergeSort
      (fun a b c hab hbc =>
        tupleLe_trans (keyOf c) (keyOf b) (keyOf a) hbc hab)
      (fun a b => tupleLe_total (keyOf b) (keyOf a)) versions

/-- Witness for C4: the list ["1.9.9", "1.10.0"] sorts to a descending
permutation with "1.10.0" first. -/
theorem sort_versions_numeric_order_witness :
    (∃ l, sort_versions ["1.9.9", "1.10.0"] = .ok l ∧
      l.Perm ["1.9.9", "1.10.0"] ∧
      l.Pairwise fun a b => tupleLe (keyOf b) (keyOf a) = true) ∧
    tupleLt (keyOf "1.9.9") (keyOf "1.10.0") = true ∧
    List.Lex (· < ·) "1.10.0".toList "1.9.9".toList :=
  sort_versions_numeric_order ["1.9.9", "1.10.0"] (by decide)

/-- C2 counterexample: the claim says sorting never crashes and unparseable
identifiers sort last and are excluded from latest-version selection.  In
fact `sorted(key=parse_version_tuple)` compares a None key, raising
TypeError, on the two-element list ["abc", "1.0"]; and
`get_latest_remote_version` returns the unparseable identifier "abc" when
it is the only platform version, excluding nothing. -/
theorem sort_versions_crash_counterexample :
    sort_versions ["abc", "1.0"] = .error () ∧
    get_latest_remote_version
        (some ⟨some [⟨some "abc", [("linux-x64", "u")]⟩], false⟩)
        "linux-x64" = .ok (some "abc") ∧
    parse_version_tuple "abc" = none := by
  refine ⟨by decide, ?_, by decide⟩
  simp [get_latest_remote_version, get_platform_versions, entrySelected,
    lookupPlatform, histTruthy, VersionHistory.truthy, sort_versions,
    sortVersionsOk, List.mergeSort]

/-- C2 as amended: sort_versions raises TypeError exactly when the list has
at least two elements and contains an identifier that fails to parse;
a list whose members all parse is sorted without error.  (Unparseable
identifiers are neither placed last nor excluded: with other elements
present they crash the sort, and alone they can be returned as the latest
remote version, see the counterexample.) -/
theorem sort_versions_unparseable_behaviour (versions : List String) :
    (sort_versions versions = .error () ↔
      2 ≤ versions.length ∧ ∃ v ∈ versions, parse_version_tuple v = none) ∧
    ((∀ v ∈ versions, (parse_version_tuple v).isSome = true) →
      sort_versions versions = .ok (sortVersionsOk versions)) := by
  have hcond : (decide (2 ≤ versions.length)
      && versions.any fun v => (parse_version_tuple v).isNone) = true ↔
      (2 ≤ versions.length ∧ ∃ v ∈ versions, parse_version_tuple v = none) := by
    simp [List.any_eq_true, Option.isNone_iff_eq_none]
  constructor
  · constructor
    · intro he
      unfold sort_versions at he
      split_ifs at he with hc
      exact hcond.mp hc
    · intro hr
      unfold sort_versions
      rw [if_pos (hcond.mpr hr)]
  · intro hall
    unfold sort_versions
    have hany : versions.any (fun v => (parse_version_tuple v).isNone)
        = false := by
      simp only [List.any_eq_false]
      intro v hv
      simp [Option.isNone_eq_false_iff,
        Option.isSome_iff_ne_none.mp (hall v hv)]
    simp [hany]

/-- Witness for C2's amended claim: ["abc", "1.0"] raises, ["2.0", "1.0"]
sorts without error. -/
theorem sort_versions_unparseable_behaviour_witness :
    sort_versions ["abc", "1.0"] = .error () ∧
    sort_versions ["2.0", "1.0"] = .ok (sortVersionsOk ["2.0", "1.0"]) :=
  ⟨(sort_versions_unparseable_behaviour ["abc", "1.0"]).1.mpr
      ⟨by decide, "abc", by decide, by decide⟩,
    (sort_versions_unparseable_behaviour ["2.0", "1.0"]).2 (by decide)⟩

/-- A list is a prefix of itself followed by anything. -/
theorem isPrefixOf_append_self (l1 l2 : List Char) :
    l1.isPrefixOf (l1 ++ l2) = true := by
  induction l1 with
  | nil => cases l2 <;> rfl
  | cons c cs ih => simpa [List.isPrefixOf] using ih

/-- The greedy class run after "cursor-" in a well-formed artifact name
swallows the version characters and the dot before "AppImage". -/
theorem takeWhile_version_run (l : List Char)
    (h : ∀ c ∈ l, versionChar c = true) :
    (l ++ regexTail).takeWhile versionChar = l ++ ['.'] ∧
    (l ++ regexTail).dropWhile versionChar = "AppImage".toList := by
  induction l with
  | nil => constructor <;> decide
  | cons c cs ih =>
    have hc : versionChar c = true := h c (by simp)
    have ih' := ih fun d hd => h d (by simp [hd])
    constructor
    · simp only [List.cons_append, List.takeWhile_cons, hc, if_true, ih'.1]
    · simp only [List.cons_append, List.dropWhile_cons, hc, if_true, ih'.2]

/-- Backtracking the greedy run by one character finds the literal
".AppImage" and yields exactly the version characters as the group. -/
theorem greedyGroup_hit (l : List Char) (h : l ≠ []) :
    greedyGroup (l ++ ['.']) "AppImage".toList (l.length + 1) = some l := by
  have hpos : l.length ≠ 0 := by simpa using h
  obtain ⟨n, hn⟩ := Nat.exists_eq_succ_of_ne_zero hpos
  have h1 : (l ++ ['.']).drop (l.length + 1) = [] :=
    List.drop_eq_nil_of_le (by simp)
  have h2 : (l ++ ['.']).drop l.length = ['.'] := by
    simpa using List.drop_left l ['.']
  have h3 : (l ++ ['.']).take l.length = l := by
    simpa using List.take_left l ['.']
  have hc1 : regexTail.isPrefixOf "AppImage".toList = false := by decide
  have hc2 : regexTail.isPrefixOf (['.'] ++ "AppImage".toList) = true := by
    decide
  rw [hn] at h1 h2 h3 ⊢
  simp only [greedyGroup, h1, h2, h3, List.nil_append, hc1, hc2,
    Bool.false_eq_true, if_false, if_true]

/-- VERSION_PATTERN matches at the start of `cursor-<v>.AppImage` with
group 1 equal to the version characters. -/
theorem matchAt_appimage (l : List Char) (hne : l ≠ [])
    (hcl : ∀ c ∈ l, versionChar c = true) :
    matchAt ("cursor-".toList ++ (l ++ regexTail)) = some ⟨l⟩ := by
  unfold matchAt
  rw [if_pos ?hpre]
  case hpre => exact isPrefixOf_append_self _ _
  have hdrop : ("cursor-".toList ++ (l ++ regexTail)).drop 7 =
      l ++ regexTail := List.drop_left "cursor-".toList (l ++ regexTail)
  rw [hdrop]
  dsimp only []
  rw [(takeWhile_version_run l hcl).1, (takeWhile_version_run l hcl).2]
  have hlen : (l ++ ['.']).length = l.length + 1 := by simp
  rw [hlen, greedyGroup_hit l hne]
  rfl

/-- C10: for every version string made only of digits and dots that
parse_version_tuple accepts, extracting the version from the artifact
filename produced by get_appimage_path returns exactly that version
string. -/
theorem extract_roundtrip (v : String)
    (hchars : ∀ c ∈ v.toList, c.isDigit = true ∨ c = '.')
    (hparse : (parse_version_tuple v).isSome = true) :
    extract_version_from_filename (get_appimage_path v).name = some v := by
  have hne : v.toList ≠ [] := by
    intro hnil
    have hv : v = "" := by
      cases v with
      | mk data =>
        simp only [String.toList] at hnil
        simp [hnil]
    rw [hv] at hparse
    exact absurd hparse (by decide)
  have hcl : ∀ c ∈ v.toList, versionChar c = true := by
    intro c hc
    rcases hchars c hc with h | h <;> simp [versionChar, h]
  have hname : (get_appimage_path v).name.toList =
      "cursor-".toList ++ (v.toList ++ regexTail) := by
    show ("cursor-" ++ v ++ ".AppImage").toList = _
    simp [String.toList, regexTail]
  unfold extract_version_from_filename
  rw [hname]
  have hstep : searchVersion ("cursor-".toList ++ (v.toList ++ regexTail)) =
      match matchAt ("cursor-".toList ++ (v.toList ++ regexTail)) with
      | some g => some g
      | none => searchVersion ("ursor-".toList ++ (v.toList ++ regexTail)) :=
    rfl
  rw [hstep, matchAt_appimage v.toList hne hcl]
  rfl

/-- Witness for C10: the version "1.2.3" round-trips through the artifact
filename. -/
theorem extract_roundtrip_witness :
    extract_version_from_filename (get_appimage_path "1.2.3").name =
      some "1.2.3" :=
  extract_roundtrip "1.2.3" (by decide) (by decide)
